import Mathlib

/-!
Verification of the metamusic terminal tag editor.

The embedding follows the Rust sources:
  * `src/functions.rs` — `get_mp3_files`, `modify_field`
  * `src/app.rs` — the `App` state machine, `tags_for_file`, `start_editing`,
    `finish_editing`, `next_item`, `previous_item`, `load_album_art`
  * `src/main.rs` — the per-mode key dispatch of `run_app`

The id3 tag codec and the image decoder are external collaborators (crates
outside this repository); their behaviour is modelled from the spec where
the sources only call into them.
-/

namespace Metamusic

/-! ## Integer parsing (model of Rust str::parse)

Rust `str::parse::<u32>` / `::<i32>` accept an optional sign followed by one
or more ASCII digits, with no surrounding whitespace, and fail on overflow.
`modify_field` uses `value.parse()` for the Track (u32) and Date (integer
year, per the spec) fields. -/

/-- Value of a decimal digit character, `none` for a non-digit. -/
def digitVal (c : Char) : Option Nat :=
  if 48 ≤ c.toNat ∧ c.toNat ≤ 57 then some (c.toNat - 48) else none

/-- Accumulate decimal digits; `none` as soon as a non-digit appears. -/
def parseDigitsAux : List Char → Nat → Option Nat
  | [], acc => some acc
  | c :: cs, acc =>
    match digitVal c with
    | some d => parseDigitsAux cs (acc * 10 + d)
    | none => none

/-- Parse a non-empty all-digit character list as a natural number. -/
def parseDigits : List Char → Option Nat
  | [] => none
  | c :: cs => parseDigitsAux (c :: cs) 0

/-- Model of Rust `str::parse::<u32>`: optional leading `+`, then one or
more decimal digits, value below 2^32. -/
def parseU32 (s : String) : Option Nat :=
  let core := match s.data with
    | '+' :: rest => parseDigits rest
    | cs => parseDigits cs
  core.bind (fun n => if n < 2 ^ 32 then some n else none)

/-- Model of Rust parsing of the Date value as a signed integer year
(optional `+`/`-` sign, decimal digits, 32-bit signed range). -/
def parseYear (s : String) : Option Int :=
  match s.data with
  | '-' :: rest =>
    (parseDigits rest).bind (fun n => if n ≤ 2 ^ 31 then some (-(n : Int)) else none)
  | '+' :: rest =>
    (parseDigits rest).bind (fun n => if n < 2 ^ 31 then some ((n : Int)) else none)
  | cs =>
    (parseDigits cs).bind (fun n => if n < 2 ^ 31 then some ((n : Int)) else none)

/-! ## Tag codec collaborator -/

/-- Modelled from the spec: the id3 tag container seen through the five
accessors the sources use — title, artist, album, recorded date (an integer
year) and track (a u32). Absent frames are `none`. -/
structure Tag where
  title : Option String
  artist : Option String
  album : Option String
  date : Option Int
  track : Option Nat
  deriving DecidableEq, Repr

/-- Modelled from the spec: `Tag::new()`, the empty tag set. -/
def Tag.new : Tag :=
  { title := none, artist := none, album := none, date := none, track := none }

/-- A file's on-disk tag state: `none` when `Tag::read_from_path` fails
(no parseable tag container), `some t` when it parses as `t`. -/
abbrev FileTags := Option Tag

/-- The field dispatch of `modify_field` (src/functions.rs lines 34–55):
exactly one field is updated; Date and Track values that fail to parse are
silently skipped; an unrecognized field name changes nothing. -/
def applyField (tag : Tag) (field value : String) : Tag :=
  if field = "Song Name" then { tag with title := some value }
  else if field = "Artist" then { tag with artist := some value }
  else if field = "Album" then { tag with album := some value }
  else if field = "Date" then
    match parseYear value with
    | some year => { tag with date := some year }
    | none => tag
  else if field = "Track" then
    match parseU32 value with
    | some t => { tag with track := some t }
    | none => tag
  else tag

/-- Model of `modify_field` (src/functions.rs lines 28–59): read the existing tags,
falling back to `Tag::new()` when unreadable; apply one field update; write
the whole tag set back. The only fallible step is the final
`write_to_path`, modelled by the `writeFails` flag; on success the file
holds the updated tag container. -/
def modify_field (writeFails : Bool) (file : FileTags) (field value : String) :
    Except String FileTags :=
  let tag := match file with
    | some t => t
    | none => Tag.new
  let tag := applyField tag field value
  if writeFails then Except.error "write failed" else Except.ok (some tag)

/-! ## Tag Accessor Read -/

/-- Model of `TagInfo` (src/app.rs lines 26–32): the read-only projection shown to
the view, each field as display text. -/
structure TagInfo where
  title : String
  artist : String
  album : String
  year : String
  track : String
  deriving DecidableEq, Repr

/-- Model of `tags_for_file` (src/app.rs lines 246–272): `none` when the tag
container cannot be read; otherwise every absent field is replaced by the
sentinel "Unknown". -/
def tags_for_file (file : FileTags) : Option TagInfo :=
  match file with
  | some tag =>
    some
      { title := (tag.title.map id).getD "Unknown"
        artist := (tag.artist.map id).getD "Unknown"
        album := (tag.album.map id).getD "Unknown"
        year := (tag.date.map toString).getD "Unknown"
        track := (tag.track.map toString).getD "Unknown" }
  | none => none

/-! ## File Enumerator -/

/-- One directory entry as `get_mp3_files` inspects it: its display name,
whether it is a regular file, and its extension (if any). -/
structure DirEntry where
  name : String
  isFile : Bool
  ext : Option String
  deriving DecidableEq, Repr

/-- The states a directory path can be in for `get_mp3_files`: not a
directory at all (missing path, or a non-directory file — `path.is_dir()`
is false), a directory whose `read_dir` fails (e.g. permission denied), or
a readable directory with its entries. -/
inductive DirAccess where
  | notDir : DirAccess
  | unreadable : DirAccess
  | readable : List DirEntry → DirAccess
  deriving DecidableEq, Repr

/-- An entry passes the filter of `get_mp3_files` when it is a regular
file with extension "mp3". -/
def isMp3Entry (e : DirEntry) : Bool :=
  e.isFile && e.ext = some "mp3"

/-- Model of `get_mp3_files` (src/functions.rs lines 6–26): when `path.is_dir()` is
false the loop body is skipped and the (empty) vector is returned; when the
directory is readable, the matching file names are collected and sorted;
`read_dir` failure propagates as an error. -/
def get_mp3_files (dir : DirAccess) : Except String (List String) :=
  match dir with
  | .notDir => Except.ok []
  | .unreadable => Except.error "io error"
  | .readable entries =>
    Except.ok (((entries.filter isMp3Entry).map DirEntry.name).insertionSort (· ≤ ·))

/-! ## Artwork Cache -/

/-- Model of `load_album_art` (src/app.rs lines 68–89) over an abstract cache state.
`cache` is the association list behind the `HashMap`; `extracted` is what
`extract_album_art_bytes` returns for this file; `decode` is the image
decode collaborator. The result triple is (returned handle, new cache,
number of decode invocations performed by this call). The decoded handle is
shared: a cache hit hands back the stored value itself. -/
def load_album_art {Bytes Img : Type} [DecidableEq Img]
    (cache : List (String × Img)) (extracted : Option Bytes)
    (decode : Bytes → Option Img) (filename : String) :
    Option Img × List (String × Img) × Nat :=
  match cache.lookup filename with
  | some cached => (some cached, cache, 0)
  | none =>
    match extracted with
    | some bytes =>
      match decode bytes with
      | some img => (some img, (filename, img) :: cache, 1)
      | none => (none, cache, 1)
    | none => (none, cache, 0)

/-! ## Navigation/Edit State Machine -/

/-- Model of `Mode` (src/app.rs lines 34–39). -/
inductive Mode where
  | FileSelection
  | FieldSelection
  | Editing
  deriving DecidableEq, Repr

/-- The `App` state (src/app.rs lines 11–23), without the render-only
image picker; the artwork cache is handled by `load_album_art` above. -/
structure App where
  files : List String
  selected_file : Nat
  fields : List String
  selected_field : Nat
  input_buffer : String
  current_field : Option String
  current_file : String
  mode : Mode
  message : String
  deriving DecidableEq, Repr

/-- The fixed five-field catalog installed by `App::new` (src/app.rs
lines 50–56). -/
def fieldCatalog : List String :=
  ["Song Name", "Artist", "Album", "Date", "Track"]

/-- Model of `App::new` (src/app.rs lines 42–66), given the enumerated file list. -/
def App.new (files : List String) : App :=
  { files := files
    selected_file := 0
    fields := fieldCatalog
    selected_field := 0
    input_buffer := ""
    current_field := none
    current_file := (files.head?).getD ""
    mode := Mode.FileSelection
    message := "Select a file to edit" }

/-- Model of `next_item` (src/app.rs lines 110–123). -/
def App.next_item (a : App) : App :=
  match a.mode with
  | Mode.FileSelection =>
    if a.files.isEmpty then a
    else
      let i := (a.selected_file + 1) % a.files.length
      { a with selected_file := i, current_file := a.files.getD i "" }
  | Mode.FieldSelection =>
    { a with selected_field := (a.selected_field + 1) % a.fields.length }
  | Mode.Editing => a

/-- Model of `previous_item` (src/app.rs lines 125–146). -/
def App.previous_item (a : App) : App :=
  match a.mode with
  | Mode.FileSelection =>
    if a.files.isEmpty then a
    else
      let i := if a.selected_file > 0 then a.selected_file - 1 else a.files.length - 1
      { a with selected_file := i, current_file := a.files.getD i "" }
  | Mode.FieldSelection =>
    { a with selected_field :=
        if a.selected_field > 0 then a.selected_field - 1 else a.fields.length - 1 }
  | Mode.Editing => a

/-- Model of `start_field_selection` (src/app.rs lines 148–153). -/
def App.start_field_selection (a : App) : App :=
  if a.files.isEmpty then a
  else { a with mode := Mode.FieldSelection, message := "Editing: " ++ a.current_file }

/-- Model of `start_editing` (src/app.rs lines 155–172), with the tag read of the
current file passed in as `fileTags`. The buffer is cleared, the current
field recorded, and — when the tag container is readable — the buffer is
filled from the field's accessor (`title`/`artist`/`album`/`year`/`track`),
absent values giving the empty string. The id3 `year()` accessor is
modelled, per the spec, as the recorded date's integer year. -/
def App.start_editing (fileTags : FileTags) (a : App) : App :=
  let field := a.fields.getD a.selected_field ""
  let buf := match fileTags with
    | none => ""
    | some tag =>
      if field = "Song Name" then tag.title.getD ""
      else if field = "Artist" then tag.artist.getD ""
      else if field = "Album" then tag.album.getD ""
      else if field = "Date" then (tag.date.map toString).getD ""
      else if field = "Track" then (tag.track.map toString).getD ""
      else ""
  { a with mode := Mode.Editing, input_buffer := buf, current_field := some field }

/-- Model of `finish_editing` (src/app.rs lines 174–189) over a filesystem `fs`
mapping file paths to tag states. When an edit session is open it invokes
`modify_field` on the current file, current field and buffer contents, and
sets the status message from the outcome (the code quotes the buffer in
the success text); either way the mode returns to FieldSelection and the
current field is dropped. The Rust function returns `Ok(())` on both
outcomes, which the model reflects by being total. -/
def App.finish_editing (writeFails : Bool) (fs : String → FileTags) (a : App) :
    App × (String → FileTags) :=
  let after := fun (m : String) =>
    { a with message := m, mode := Mode.FieldSelection, current_field := none }
  match a.current_field with
  | some field =>
    match modify_field writeFails (fs a.current_file) field a.input_buffer with
    | Except.ok newTags =>
      (after ("✓ Updated " ++ field ++ " to " ++ a.input_buffer),
       fun p => if p = a.current_file then newTags else fs p)
    | Except.error e => (after ("✗ Error: " ++ e), fs)
  | none => ({ a with mode := Mode.FieldSelection, current_field := none }, fs)

/-- Model of `cancel_editing` (src/app.rs lines 191–195). -/
def App.cancel_editing (a : App) : App :=
  { a with mode := Mode.FieldSelection, current_field := none, message := "Edit cancelled" }

/-- Model of `back_to_files` (src/app.rs lines 197–200). -/
def App.back_to_files (a : App) : App :=
  { a with mode := Mode.FileSelection, message := "Select a file to edit" }

/-- Model of `push_to_buffer` (src/app.rs lines 238–240). -/
def App.push_to_buffer (c : Char) (a : App) : App :=
  { a with input_buffer := a.input_buffer.push c }

/-- Model of `pop_from_buffer` (src/app.rs lines 242–244). -/
def App.pop_from_buffer (a : App) : App :=
  { a with input_buffer := String.mk a.input_buffer.data.dropLast }

/-- The EditSession of the spec's data model: it exists only while the
machine is in Editing mode, and consists of the field being edited and the
input buffer. -/
def App.editSession (a : App) : Option (String × String) :=
  match a.mode with
  | Mode.Editing => a.current_field.map (fun f => (f, a.input_buffer))
  | _ => none

/-! ## Key dispatch (src/main.rs) -/

/-- The key intents `run_app` distinguishes. -/
inductive KeyCode where
  | enter
  | esc
  | backspace
  | char : Char → KeyCode
  | up
  | down
  | other
  deriving DecidableEq, Repr

/-- The Editing-mode arm of `run_app`'s match (src/main.rs lines 64–77).
Rust match arms apply in order: `Char('b')` is matched before the generic
`Char(c)`, so typing the letter b leaves Editing instead of appending. -/
def editingKey (writeFails : Bool) (fs : String → FileTags) (a : App) (k : KeyCode) :
    App × (String → FileTags) :=
  match k with
  | KeyCode.enter => a.finish_editing writeFails fs
  | KeyCode.esc => (a.cancel_editing, fs)
  | KeyCode.char c => if c = 'b' then (a.back_to_files, fs) else (a.push_to_buffer c, fs)
  | KeyCode.backspace => (a.pop_from_buffer, fs)
  | _ => (a, fs)

/-! ## Field-level reads of a file's tag state -/

/-- The title a subsequent tag read reports (raw, `none` when absent or
the container is unreadable). -/
def readTitle (f : FileTags) : Option String := f.bind Tag.title

/-- The artist a subsequent tag read reports. -/
def readArtist (f : FileTags) : Option String := f.bind Tag.artist

/-- The album a subsequent tag read reports. -/
def readAlbum (f : FileTags) : Option String := f.bind Tag.album

/-- The recorded-date year a subsequent tag read reports. -/
def readDate (f : FileTags) : Option Int := f.bind Tag.date

/-- The track number a subsequent tag read reports. -/
def readTrack (f : FileTags) : Option Nat := f.bind Tag.track

/-- The TagInfo component for one of the three free-text fields. -/
def infoTextField (field : String) (info : TagInfo) : String :=
  if field = "Song Name" then info.title
  else if field = "Artist" then info.artist
  else info.album

/-- The raw value the Tag Accessor Read reports for one catalog field of a
file: `none` when the container is unreadable or the field absent. -/
def readFieldDisplay (file : FileTags) (field : String) : Option String :=
  file.bind fun tag =>
    if field = "Song Name" then tag.title
    else if field = "Artist" then tag.artist
    else if field = "Album" then tag.album
    else if field = "Date" then tag.date.map toString
    else if field = "Track" then tag.track.map toString
    else none

/-- The `TagInfo` component corresponding to a catalog field. -/
def infoField (field : String) (info : TagInfo) : String :=
  if field = "Song Name" then info.title
  else if field = "Artist" then info.artist
  else if field = "Album" then info.album
  else if field = "Date" then info.year
  else info.track

/-! ## Concrete states used by witnesses -/

/-- A tag whose artist is "Old" and nothing else is set. -/
def tagOld : Tag := { Tag.new with artist := some "Old" }

/-- An app in FieldSelection with the Artist field (index 1) selected. -/
def appOnArtist : App :=
  { App.new ["a.mp3"] with mode := Mode.FieldSelection, selected_field := 1 }

/-- An app sitting in Editing mode with an empty buffer. -/
def appEditing : App := { App.new [] with mode := Mode.Editing }

/-- An app in Editing mode on a.mp3 with Artist being edited to "New". -/
def appCommitting : App :=
  { App.new ["a.mp3"] with
    mode := Mode.Editing,
    current_field := some "Artist",
    input_buffer := "New" }

/-- A two-file app in FileSelection sitting on the last file. -/
def appOnLastFile : App :=
  { App.new ["a.mp3", "b.mp3"] with selected_file := 1 }

/-! ## Claims about modify_field (C1, C2, C10) -/

/-- C1 (counterexample): the claim quantifies over Track values that do
not parse as a *positive* integer. The value "0" parses as a u32 but not
as a positive integer, yet `modify_field` sets the track to 0, changing
the subsequently-read value — so the claim as stated is false. -/
theorem C1_counterexample :
    ¬ (∀ (file : FileTags) (v : String),
        (¬ ∃ n, parseU32 v = some n ∧ 0 < n) →
        ∃ f', modify_field false file "Track" v = Except.ok f' ∧
          readTrack f' = readTrack file) := by
  intro h
  obtain ⟨f', hf', hr⟩ :=
    h (some { Tag.new with track := some 5 }) "0"
      (by
        rintro ⟨n, hn, hpos⟩
        have h0 : parseU32 "0" = some 0 := by decide
        rw [h0] at hn
        injection hn with hn
        omega)
  have hcalc : modify_field false (some { Tag.new with track := some 5 }) "Track" "0" =
      Except.ok (some { Tag.new with track := some 0 }) := rfl
  rw [hcalc] at hf'
  injection hf' with hf'
  subst hf'
  exact absurd hr (by decide)

/-- C1 (amended): for every file and every Date value that does not parse
as an integer year, and every Track value that does not parse as a
non-negative 32-bit integer (the u32 parse of the code, rather than the
claim's "positive integer"), `modify_field` succeeds and the field's
subsequently-read value is unchanged. -/
theorem C1_unparseable_value_leaves_field_unchanged (file : FileTags) (v : String) :
    (parseYear v = none →
      ∃ f', modify_field false file "Date" v = Except.ok f' ∧
        readDate f' = readDate file) ∧
    (parseU32 v = none →
      ∃ f', modify_field false file "Track" v = Except.ok f' ∧
        readTrack f' = readTrack file) := by
  constructor
  · intro hp
    refine ⟨_, rfl, ?_⟩
    cases file <;> simp [modify_field, applyField, hp, readDate, Tag.new]
  · intro hp
    refine ⟨_, rfl, ?_⟩
    cases file <;> simp [modify_field, applyField, hp, readTrack, Tag.new]

/-- Witness for C1 at the concrete value "20x5" (unparseable as year and
as u32) on a file whose date is 1999 and track is 7. -/
theorem C1_witness :
    parseYear "20x5" = none ∧ parseU32 "20x5" = none ∧
    ((∃ f', modify_field false (some { Tag.new with date := some 1999, track := some 7 })
        "Date" "20x5" = Except.ok f' ∧
        readDate f' = readDate (some { Tag.new with date := some 1999, track := some 7 })) ∧
     (∃ f', modify_field false (some { Tag.new with date := some 1999, track := some 7 })
        "Track" "20x5" = Except.ok f' ∧
        readTrack f' = readTrack (some { Tag.new with date := some 1999, track := some 7 }))) :=
  ⟨by decide, by decide,
    (C1_unparseable_value_leaves_field_unchanged _ "20x5").1 (by decide),
    (C1_unparseable_value_leaves_field_unchanged _ "20x5").2 (by decide)⟩

/-- C2: writing Song Name, Artist or Album to any string V (including "")
succeeds, and the subsequent `tags_for_file` read reports exactly V for
that field. -/
theorem C2_write_read_roundtrip (file : FileTags) (field v : String)
    (h : field = "Song Name" ∨ field = "Artist" ∨ field = "Album") :
    ∃ f' info, modify_field false file field v = Except.ok f' ∧
      tags_for_file f' = some info ∧ infoTextField field info = v := by
  refine ⟨_, _, rfl, rfl, ?_⟩
  rcases h with h | h | h <;> subst h <;>
    cases file <;> simp [modify_field, applyField, tags_for_file, infoTextField, Tag.new]

/-- Witness for C2: writing an empty Artist to a file with no readable
tags, then reading, yields the empty string. -/
theorem C2_witness :
    ∃ f' info, modify_field false none "Artist" "" = Except.ok f' ∧
      tags_for_file f' = some info ∧ infoTextField "Artist" info = "" :=
  C2_write_read_roundtrip none "Artist" "" (Or.inr (Or.inl rfl))

/-- C10 (counterexample): for a file whose tag container is unreadable,
`modify_field` with an unrecognized field name still writes a fresh empty
tag container to the file, so the file's tag data does not stay unchanged. -/
theorem C10_counterexample :
    ¬ (∀ (file : FileTags) (field v : String), field ∉ fieldCatalog →
        modify_field false file field v = Except.ok file) := by
  intro h
  have := h none "Comment" "x" (by decide)
  simp [modify_field, applyField, fieldCatalog] at this

/-- C10 (amended): with an unrecognized field name, no field value
changes — each of the five subsequently-read field values is exactly what
it was before — and a file whose tag container was readable is left with
the very same tag container; the call succeeds. A file with no readable
container, however, gains a fresh empty one (all fields still absent). -/
theorem C10_unknown_field_changes_no_field (file : FileTags) (field v : String)
    (h : field ∉ fieldCatalog) :
    modify_field false file field v =
      Except.ok (some (match file with | some t => t | none => Tag.new)) ∧
    (∀ t, file = some t → modify_field false file field v = Except.ok file) ∧
    (∃ f', modify_field false file field v = Except.ok f' ∧
      readTitle f' = readTitle file ∧ readArtist f' = readArtist file ∧
      readAlbum f' = readAlbum file ∧ readDate f' = readDate file ∧
      readTrack f' = readTrack file) := by
  simp only [fieldCatalog, List.mem_cons, List.mem_singleton, not_or] at h
  obtain ⟨h1, h2, h3, h4, h5⟩ := h
  refine ⟨?_, ?_, ?_⟩
  · cases file <;> simp [modify_field, applyField, h1, h2, h3, h4, h5]
  · rintro t rfl
    simp [modify_field, applyField, h1, h2, h3, h4, h5]
  · refine ⟨_, rfl, ?_⟩
    cases file <;>
      simp [modify_field, applyField, h1, h2, h3, h4, h5, readTitle, readArtist,
        readAlbum, readDate, readTrack, Tag.new]

/-- Witness for C10 at the unrecognized field "Comment". -/
theorem C10_witness :
    modify_field false (some Tag.new) "Comment" "x" = Except.ok (some Tag.new) :=
  ((C10_unknown_field_changes_no_field (some Tag.new) "Comment" "x" (by decide)).2.1)
    Tag.new rfl

/-! ## Claims about the File Enumerator (C3, C9) -/

/-- C3 (counterexample): the claim says every directory that cannot be
opened or read — a missing one included — makes the enumerator fail with
an I/O error. But `get_mp3_files` guards the read loop with
`path.is_dir()`: for a missing (or non-directory) path the loop is skipped
and `Ok([])` is returned, not an error. -/
theorem C3_counterexample :
    ¬ (∀ d : DirAccess, (d = DirAccess.notDir ∨ d = DirAccess.unreadable) →
        ∃ e, get_mp3_files d = Except.error e) := by
  intro h
  obtain ⟨e, he⟩ := h DirAccess.notDir (Or.inl rfl)
  simp [get_mp3_files] at he

/-- C3 (amended): the enumerator fails with an I/O error only when the
path is a directory whose contents cannot be read (e.g. permission
denied); a missing or non-directory path yields the empty list, as does a
readable directory with no matching files. -/
theorem C3_unreadable_dir_fails (es : List DirEntry)
    (hnone : ∀ e ∈ es, isMp3Entry e = false) :
    (∃ err, get_mp3_files DirAccess.unreadable = Except.error err) ∧
    get_mp3_files DirAccess.notDir = Except.ok [] ∧
    get_mp3_files (DirAccess.readable es) = Except.ok [] := by
  refine ⟨⟨"io error", rfl⟩, rfl, ?_⟩
  have hfil : es.filter isMp3Entry = [] := List.filter_eq_nil_iff.mpr (by
    intro a ha
    simp [hnone a ha])
  simp [get_mp3_files, hfil]

/-- Witness for C3 (amended) on a directory holding one non-mp3 entry. -/
theorem C3_witness :
    (∃ err, get_mp3_files DirAccess.unreadable = Except.error err) ∧
    get_mp3_files DirAccess.notDir = Except.ok [] ∧
    get_mp3_files (DirAccess.readable [⟨"a.txt", true, some "txt"⟩]) = Except.ok [] :=
  C3_unreadable_dir_fails [⟨"a.txt", true, some "txt"⟩] (by decide)

/-- C9: enumerating a readable directory (whose entry names are distinct,
as names within one directory are) succeeds with a lexicographically
sorted, duplicate-free list, and a second run on the unchanged directory
returns the identical list. -/
theorem C9_enumerate_sorted_nodup_deterministic (es : List DirEntry)
    (hnodup : (es.map DirEntry.name).Nodup) :
    ∃ l, get_mp3_files (DirAccess.readable es) = Except.ok l ∧
      l.Sorted (· ≤ ·) ∧ l.Nodup ∧
      get_mp3_files (DirAccess.readable es) = Except.ok l := by
  refine ⟨_, rfl, ?_, ?_, rfl⟩
  · exact List.sorted_insertionSort _ _
  · have hsub : ((es.filter isMp3Entry).map DirEntry.name).Sublist (es.map DirEntry.name) :=
      (List.filter_sublist es).map DirEntry.name
    have hnd : ((es.filter isMp3Entry).map DirEntry.name).Nodup := hnodup.sublist hsub
    exact (List.perm_insertionSort (· ≤ ·) _).symm.nodup hnd

/-- Witness for C9 on a concrete three-entry directory. -/
theorem C9_witness :
    ∃ l, get_mp3_files (DirAccess.readable
        [⟨"b.mp3", true, some "mp3"⟩, ⟨"a.mp3", true, some "mp3"⟩,
         ⟨"notes.txt", true, some "txt"⟩]) = Except.ok l ∧
      l.Sorted (· ≤ ·) ∧ l.Nodup ∧
      get_mp3_files (DirAccess.readable
        [⟨"b.mp3", true, some "mp3"⟩, ⟨"a.mp3", true, some "mp3"⟩,
         ⟨"notes.txt", true, some "txt"⟩]) = Except.ok l :=
  C9_enumerate_sorted_nodup_deterministic _ (by decide)

/-! ## Claims about the state machine (C4, C5, C6, C8) -/

/-- C4: for every currently selected field of the catalog, the confirm
transition out of FieldSelection enters Editing and pre-populates the
input buffer with exactly the value the Tag Accessor Read reports for that
field (the empty string when the field is absent or the container is
unreadable); whenever the field is present, that buffer value agrees with
the `tags_for_file` projection of the field. -/
theorem C4_start_editing_prepopulates_buffer (fileTags : FileTags) (a : App)
    (hfields : a.fields = fieldCatalog) (hi : a.selected_field < fieldCatalog.length) :
    (a.start_editing fileTags).mode = Mode.Editing ∧
    (a.start_editing fileTags).current_field = some (a.fields.getD a.selected_field "") ∧
    (a.start_editing fileTags).input_buffer =
      (readFieldDisplay fileTags (a.fields.getD a.selected_field "")).getD "" ∧
    (∀ s, readFieldDisplay fileTags (a.fields.getD a.selected_field "") = some s →
      ∃ info, tags_for_file fileTags = some info ∧
        infoField (a.fields.getD a.selected_field "") info = s) := by
  have h5 : a.selected_field = 0 ∨ a.selected_field = 1 ∨ a.selected_field = 2 ∨
      a.selected_field = 3 ∨ a.selected_field = 4 := by
    simp [fieldCatalog] at hi
    omega
  refine ⟨rfl, rfl, ?_, ?_⟩
  · rcases h5 with h | h | h | h | h <;>
      cases fileTags <;>
        simp [App.start_editing, hfields, h, fieldCatalog, readFieldDisplay]
  · intro s hs
    cases fileTags with
    | none => simp [readFieldDisplay] at hs
    | some tag =>
      rw [hfields] at hs ⊢
      refine ⟨_, rfl, ?_⟩
      rcases h5 with h | h | h | h | h <;>
        simp [fieldCatalog, h, readFieldDisplay] at hs
      · simp [tags_for_file, infoField, fieldCatalog, h, hs]
      · simp [tags_for_file, infoField, fieldCatalog, h, hs]
      · simp [tags_for_file, infoField, fieldCatalog, h, hs]
      · obtain ⟨y, hy, rfl⟩ := hs
        simp [tags_for_file, infoField, fieldCatalog, h, hy]
      · obtain ⟨y, hy, rfl⟩ := hs
        simp [tags_for_file, infoField, fieldCatalog, h, hy]

/-- Witness for C4: selecting the Artist field (index 1) on a file whose
artist is "Old" pre-populates the buffer with "Old", the value the Tag
Accessor Read reports. -/
theorem C4_witness :
    (App.start_editing (some tagOld) appOnArtist).mode = Mode.Editing ∧
    (App.start_editing (some tagOld) appOnArtist).input_buffer =
      (readFieldDisplay (some tagOld) (appOnArtist.fields.getD appOnArtist.selected_field "")).getD
        "" ∧
    (∃ info, tags_for_file (some tagOld) = some info ∧ infoField "Artist" info = "Old") :=
  ⟨(C4_start_editing_prepopulates_buffer (some tagOld) appOnArtist rfl (by decide)).1,
   (C4_start_editing_prepopulates_buffer (some tagOld) appOnArtist rfl (by decide)).2.2.1,
   (C4_start_editing_prepopulates_buffer (some tagOld) appOnArtist rfl (by decide)).2.2.2
     "Old" rfl⟩

/-- C5 (counterexample): not every character appends in Editing mode — the
Rust match arm `Char('b')` precedes the generic `Char(c)` arm, so typing
the letter b triggers back-to-files instead of appending. -/
theorem C5_counterexample :
    ¬ (∀ (a : App) (c : Char), a.mode = Mode.Editing →
        (editingKey false (fun _ => none) a (KeyCode.char c)).1.input_buffer =
          a.input_buffer.push c ∧
        (editingKey false (fun _ => none) a (KeyCode.char c)).1.mode = Mode.Editing) := by
  intro h
  exact absurd (h appEditing 'b' rfl) (by decide)

/-- C5 (amended): in Editing mode every character other than the letter b
is appended to the input buffer with the machine staying in Editing; the
character b instead triggers the back-to-files transition (buffer left
unchanged, mode becomes FileSelection). -/
theorem C5_char_appends_except_b (a : App) (c : Char) (w : Bool) (fs : String → FileTags)
    (hm : a.mode = Mode.Editing) :
    (c ≠ 'b' →
      (editingKey w fs a (KeyCode.char c)).1 = a.push_to_buffer c ∧
      (a.push_to_buffer c).mode = Mode.Editing ∧
      (a.push_to_buffer c).input_buffer = a.input_buffer.push c) ∧
    (c = 'b' →
      (editingKey w fs a (KeyCode.char c)).1 = a.back_to_files ∧
      a.back_to_files.mode = Mode.FileSelection ∧
      a.back_to_files.input_buffer = a.input_buffer) := by
  constructor
  · intro hc
    exact ⟨by simp [editingKey, hc], hm, rfl⟩
  · rintro rfl
    exact ⟨by simp [editingKey], rfl, rfl⟩

/-- Witness for C5 with the character x in a concrete Editing-mode app. -/
theorem C5_witness :
    (editingKey false (fun _ => none) appEditing (KeyCode.char 'x')).1 =
      App.push_to_buffer 'x' appEditing ∧
    (App.push_to_buffer 'x' appEditing).mode = Mode.Editing ∧
    (App.push_to_buffer 'x' appEditing).input_buffer = appEditing.input_buffer.push 'x' :=
  (C5_char_appends_except_b appEditing 'x' false (fun _ => none) rfl).1 (by decide)

/-- C6: for both outcomes of the underlying write, confirming in Editing
mode invokes the Tag Accessor Write with the current file, current field
and buffer contents (only the current file's tag state changes), sets the
status message to the corresponding success or failure text, returns to
FieldSelection and discards the edit session; the operation is total —
a write failure is surfaced, never fatal. -/
theorem C6_confirm_commits_and_returns (w : Bool) (fs : String → FileTags) (a : App)
    (field : String) (hf : a.current_field = some field) :
    (a.finish_editing w fs).1.mode = Mode.FieldSelection ∧
    (a.finish_editing w fs).1.editSession = none ∧
    (a.finish_editing w fs).1.current_field = none ∧
    (w = false →
      modify_field false (fs a.current_file) field a.input_buffer =
        Except.ok ((a.finish_editing w fs).2 a.current_file) ∧
      (∀ p, p ≠ a.current_file → (a.finish_editing w fs).2 p = fs p) ∧
      (a.finish_editing w fs).1.message =
        "✓ Updated " ++ field ++ " to " ++ a.input_buffer) ∧
    (w = true →
      (a.finish_editing w fs).2 = fs ∧
      (a.finish_editing w fs).1.message = "✗ Error: write failed") := by
  cases w with
  | false =>
    refine ⟨?_, ?_, ?_, ?_, by simp⟩
    · simp [App.finish_editing, hf, modify_field]
    · simp [App.finish_editing, hf, modify_field, App.editSession]
    · simp [App.finish_editing, hf, modify_field]
    · intro _
      refine ⟨?_, ?_, ?_⟩
      · simp [App.finish_editing, hf, modify_field]
      · intro p hp
        simp [App.finish_editing, hf, modify_field, hp]
      · simp [App.finish_editing, hf, modify_field]
  | true =>
    refine ⟨?_, ?_, ?_, by simp, ?_⟩
    · simp [App.finish_editing, hf, modify_field]
    · simp [App.finish_editing, hf, modify_field, App.editSession]
    · simp [App.finish_editing, hf, modify_field]
    · intro _
      refine ⟨?_, ?_⟩
      · simp [App.finish_editing, hf, modify_field]
      · simp [App.finish_editing, hf, modify_field]

/-- Witness for C6: committing the Artist value "New" to a.mp3 with the
write succeeding returns to FieldSelection, drops the session and sets the
success message. -/
theorem C6_witness :
    (appCommitting.finish_editing false (fun _ => none)).1.mode = Mode.FieldSelection ∧
    (appCommitting.finish_editing false (fun _ => none)).1.editSession = none ∧
    modify_field false none "Artist" appCommitting.input_buffer =
      Except.ok ((appCommitting.finish_editing false (fun _ => none)).2
        appCommitting.current_file) ∧
    (appCommitting.finish_editing false (fun _ => none)).1.message =
      "✓ Updated " ++ "Artist" ++ " to " ++ appCommitting.input_buffer :=
  ⟨(C6_confirm_commits_and_returns false (fun _ => none) appCommitting "Artist" rfl).1,
   (C6_confirm_commits_and_returns false (fun _ => none) appCommitting "Artist" rfl).2.1,
   ((C6_confirm_commits_and_returns false (fun _ => none) appCommitting "Artist" rfl).2.2.2.1
     rfl).1,
   ((C6_confirm_commits_and_returns false (fun _ => none) appCommitting "Artist" rfl).2.2.2.1
     rfl).2.2⟩

/-- C8: with non-empty file and field lists and in-range cursors, both
cursors remain in range after `next_item` and `previous_item` in every
mode, and navigation wraps: Next from the last index yields 0 and
Previous from 0 yields the last index, in the mode that moves the
corresponding cursor. -/
theorem C8_selection_indices_in_range_and_wrap (a : App)
    (hf : a.files ≠ []) (hfl : a.fields ≠ [])
    (h1 : a.selected_file < a.files.length) (h2 : a.selected_field < a.fields.length) :
    (a.next_item.selected_file < a.files.length ∧
     a.next_item.selected_field < a.fields.length ∧
     a.previous_item.selected_file < a.files.length ∧
     a.previous_item.selected_field < a.fields.length) ∧
    (a.mode = Mode.FileSelection →
      (a.selected_file = a.files.length - 1 → a.next_item.selected_file = 0) ∧
      (a.selected_file = 0 → a.previous_item.selected_file = a.files.length - 1)) ∧
    (a.mode = Mode.FieldSelection →
      (a.selected_field = a.fields.length - 1 → a.next_item.selected_field = 0) ∧
      (a.selected_field = 0 → a.previous_item.selected_field = a.fields.length - 1)) := by
  have hlen : 0 < a.files.length := List.length_pos.mpr hf
  have hlenl : 0 < a.fields.length := List.length_pos.mpr hfl
  have hne : a.files.isEmpty = false := by
    cases h' : a.files
    · exact absurd h' hf
    · rfl
  cases hmode : a.mode with
  | FileSelection =>
    refine ⟨⟨?_, ?_, ?_, ?_⟩, ?_, by simp [hmode]⟩
    · simp only [App.next_item, hmode, hne]
      exact Nat.mod_lt _ hlen
    · simpa [App.next_item, hmode, hne] using h2
    · simp [App.previous_item, hmode, hne]
      split <;> omega
    · simpa [App.previous_item, hmode, hne] using h2
    · intro _
      constructor
      · intro hs
        simp only [App.next_item, hmode, hne]
        have hsum : a.selected_file + 1 = a.files.length := by omega
        simp [hsum]
      · intro hs
        simp [App.previous_item, hmode, hne, hs]
  | FieldSelection =>
    refine ⟨⟨?_, ?_, ?_, ?_⟩, by simp [hmode], ?_⟩
    · simpa [App.next_item, hmode] using h1
    · simp only [App.next_item, hmode]
      exact Nat.mod_lt _ hlenl
    · simpa [App.previous_item, hmode] using h1
    · simp [App.previous_item, hmode]
      split <;> omega
    · intro _
      constructor
      · intro hs
        simp only [App.next_item, hmode]
        have hsum : a.selected_field + 1 = a.fields.length := by omega
        simp [hsum]
      · intro hs
        simp [App.previous_item, hmode, hs]
  | Editing =>
    refine ⟨⟨?_, ?_, ?_, ?_⟩, by simp [hmode], by simp [hmode]⟩ <;>
      simp [App.next_item, App.previous_item, hmode, h1, h2]

/-- Witness for C8 on a two-file app sitting on the last file: Next wraps
to index 0 and both cursors stay in range. -/
theorem C8_witness :
    (appOnLastFile.next_item.selected_file < appOnLastFile.files.length ∧
     appOnLastFile.next_item.selected_field < appOnLastFile.fields.length ∧
     appOnLastFile.previous_item.selected_file < appOnLastFile.files.length ∧
     appOnLastFile.previous_item.selected_field < appOnLastFile.fields.length) ∧
    appOnLastFile.next_item.selected_file = 0 :=
  ⟨(C8_selection_indices_in_range_and_wrap appOnLastFile
      (by decide) (by decide) (by decide) (by decide)).1,
   ((C8_selection_indices_in_range_and_wrap appOnLastFile
      (by decide) (by decide) (by decide) (by decide)).2.1 rfl).1 rfl⟩

/-! ## Claim about the Artwork Cache (C7) -/

/-- C7: when the path is not yet cached, a successful decode is cached and
returned, and the immediately following Get is a pure cache hit returning
the very same shared handle with no further decode (one decode in total);
a decode failure, or absent artwork bytes, returns absent and leaves the
cache untouched, so the next Get re-attempts. -/
theorem C7_artwork_get_idempotent {Bytes Img : Type} [DecidableEq Img]
    (cache : List (String × Img)) (b : Bytes) (decode : Bytes → Option Img)
    (name : String) (hmiss : cache.lookup name = none) :
    (∀ img, decode b = some img →
      load_album_art cache (some b) decode name = (some img, (name, img) :: cache, 1) ∧
      load_album_art ((name, img) :: cache) (some b) decode name =
        (some img, (name, img) :: cache, 0)) ∧
    (decode b = none →
      load_album_art cache (some b) decode name = (none, cache, 1)) ∧
    load_album_art cache (none : Option Bytes) decode name = (none, cache, 0) := by
  refine ⟨?_, ?_, ?_⟩
  · intro img hdec
    constructor
    · simp [load_album_art, hmiss, hdec]
    · simp [load_album_art, List.lookup]
  · intro hdec
    simp [load_album_art, hmiss, hdec]
  · simp [load_album_art, hmiss]

/-- Witness for C7 with a one-file cache over natural-number handles. -/
theorem C7_witness :
    load_album_art ([] : List (String × Nat)) (some (0 : Nat)) (fun _ => some 7) "a.mp3" =
      (some 7, [("a.mp3", 7)], 1) ∧
    load_album_art [("a.mp3", 7)] (some (0 : Nat)) (fun _ => some 7) "a.mp3" =
      (some 7, [("a.mp3", 7)], 0) :=
  (C7_artwork_get_idempotent [] 0 (fun _ => some 7) "a.mp3" rfl).1 7 rfl

end Metamusic
